import Mathlib

/-!
Verification of the configuration-validation and service-bootstrap logic of
the custom-mem0 repository (src/config/config.py, src/app/memory/memory.py),
as a shallow embedding in Lean.

Strings and integers are embedded as Lean `String` and `Int`.  Python
f-strings are embedded as string concatenations; apostrophes and braces in
message literals are written with \x escapes.
-/

namespace Mem0

/-- Decidable equality for `Except`, used to evaluate validator results on
concrete inputs. -/
instance instDecEqExcept {ε α : Type} [DecidableEq ε] [DecidableEq α] :
    DecidableEq (Except ε α) := fun x y =>
  match x, y with
  | .ok a, .ok b =>
      match decEq a b with
      | .isTrue h => .isTrue (h ▸ rfl)
      | .isFalse h => .isFalse (fun hc => h (Except.ok.inj hc))
  | .ok _, .error _ => .isFalse (fun hc => Except.noConfusion hc)
  | .error _, .ok _ => .isFalse (fun hc => Except.noConfusion hc)
  | .error e, .error f =>
      match decEq e f with
      | .isTrue h => .isTrue (h ▸ rfl)
      | .isFalse h => .isFalse (fun hc => h (Except.error.inj hc))

/-- Embeds `class LogLevel(StrEnum)` from src/config/config.py. -/
inductive LogLevel where
  | debug
  | info
  | warning
  | error
  | critical
  | trace
deriving DecidableEq

/-- The string value of each `LogLevel` member, as in the StrEnum. -/
def LogLevel.value : LogLevel → String
  | .debug => "debug"
  | .info => "info"
  | .warning => "warning"
  | .error => "error"
  | .critical => "critical"
  | .trace => "trace"

/-- The members of `LogLevel`, in declaration order (iteration order of
`for level in LogLevel` in Python). -/
def LogLevel.members : List LogLevel :=
  [.debug, .info, .warning, .error, .critical, .trace]

/-- Embeds the validated `Config` object of src/config/config.py: the field
set of `class Config(BaseSettings)` after successful validation. -/
structure Config where
  backend : String
  history_db_path : String
  qdrant_host : String
  qdrant_port : Int
  neo4j_ip : String
  neo4j_username : String
  neo4j_password : String
  postgres_host : String
  postgres_port : Int
  postgres_user : String
  postgres_password : String
  postgres_database : String
  postgres_collection_name : String
  fastapi_host : String
  fastapi_port : Int
  memory_log_level : LogLevel
  openai_api_key : String
  openai_model : String
  openai_embedding_model : String
deriving DecidableEq

/-- The raw value handed to the `memory_log_level` field validator
(`mode="before"`): either an already-constructed `LogLevel`, a string, or a
value of some other type (represented by its type name, as interpolated by
the error message). -/
inductive LogRaw where
  | lvl (l : LogLevel)
  | str (s : String)
  | other (typeName : String)
deriving DecidableEq

/-- The raw inputs to `Config(...)` construction: the per-field values before
field validation.  `backend` and `memory_log_level` are the two fields with
field validators; the remaining fields are taken at their coerced types. -/
structure RawConfig where
  backend : String
  history_db_path : String
  qdrant_host : String
  qdrant_port : Int
  neo4j_ip : String
  neo4j_username : String
  neo4j_password : String
  postgres_host : String
  postgres_port : Int
  postgres_user : String
  postgres_password : String
  postgres_database : String
  postgres_collection_name : String
  fastapi_host : String
  fastapi_port : Int
  memory_log_level : LogRaw
  openai_api_key : String
  openai_model : String
  openai_embedding_model : String
deriving DecidableEq

/-- The shipped defaults of every `Config` field (the class-level defaults in
src/config/config.py lines 26-54). -/
def rawDefault : RawConfig :=
  { backend := "pgvector"
    history_db_path := "memory.db"
    qdrant_host := "localhost"
    qdrant_port := 6333
    neo4j_ip := "localhost"
    neo4j_username := "neo4j"
    neo4j_password := "password"
    postgres_host := "postgres"
    postgres_port := 5432
    postgres_user := "postgres"
    postgres_password := "postgres"
    postgres_database := "postgres"
    postgres_collection_name := "memories"
    fastapi_host := "localhost"
    fastapi_port := 8000
    memory_log_level := .lvl .info
    openai_api_key := "your_openai_api_key"
    openai_model := "gpt-4o-mini"
    openai_embedding_model := "text-embedding-3-small" }

/-- The list of valid level value strings, `[level.value for level in LogLevel]`,
as interpolated into the error message. -/
def validLevelsStr : String :=
  "[\x27debug\x27, \x27info\x27, \x27warning\x27, \x27error\x27, \x27critical\x27, \x27trace\x27]"

/-- Embeds `Config.validate_memory_log_level` (field validator, mode before):
a `LogLevel` passes through; a string is matched case-insensitively against
the member values; anything else is rejected. -/
def validate_memory_log_level (v : LogRaw) : Except String LogLevel :=
  match v with
  | .lvl l => .ok l
  | .str s =>
      let sLower := s.toLower
      match LogLevel.members.find? (fun level => level.value.toLower = sLower) with
      | some level => .ok level
      | none =>
          .error ("memory_log_level must be one of " ++ validLevelsStr
            ++ ", got \x27" ++ s ++ "\x27")
  | .other typeName =>
      .error ("memory_log_level must be a string or LogLevel enum, got " ++ typeName)

/-- Embeds `Config.validate_backend`: the allowed set is
`{"pgvector", "qdrant"}`; any other string raises a ValueError whose message
names the allowed set and the offending value.  (Python renders the set
literal; one member order is fixed here.) -/
def validate_backend (v : String) : Except String String :=
  if v = "pgvector" ∨ v = "qdrant" then .ok v
  else
    .error ("backend must be one of \x7b\x27pgvector\x27, \x27qdrant\x27\x7d, got \x27"
      ++ v ++ "\x27")

/-- Embeds the `is_development` condition at the top of
`Config.validate_backend_dependencies`: both secret-bearing fields still hold
their shipped placeholder values. -/
def is_development (c : Config) : Prop :=
  (c.neo4j_password = "password" ∨ c.neo4j_password = "mem0graph") ∧
    (c.openai_api_key = "your_openai_api_key" ∨ c.openai_api_key = "sk-proj-")

instance (c : Config) : Decidable (is_development c) := by
  unfold is_development
  infer_instance

/-- Embeds `Config.validate_backend_dependencies` (model validator, mode
after).  The result carries the validated config together with a flag that
is true exactly when the development-defaults warning was printed.  The
check `if not self.postgres_password or self.postgres_password ==
"postgres": pass` in the source has an empty body and is therefore a no-op,
so it contributes nothing here.  The OpenAI key check follows the backend branch
unconditionally, as in the source. -/
def validate_backend_dependencies (c : Config) : Except String (Config × Bool) :=
  if is_development c then
    .ok (c, true)
  else if c.backend = "pgvector" then
    if c.postgres_host = "" then
      .error "postgres_host is required when backend is \x27pgvector\x27"
    else if c.postgres_user = "" then
      .error "postgres_user is required when backend is \x27pgvector\x27"
    else if c.postgres_port ≤ 0 ∨ c.postgres_port > 65535 then
      .error "postgres_port must be a valid port number (1-65535)"
    else if c.openai_api_key = "" ∨ c.openai_api_key = "your_openai_api_key" then
      .error "openai_api_key must be set to a valid OpenAI API key"
    else .ok (c, false)
  else if c.backend = "qdrant" then
    if c.qdrant_host = "" then
      .error "qdrant_host is required when backend is \x27qdrant\x27"
    else if c.qdrant_port ≤ 0 ∨ c.qdrant_port > 65535 then
      .error "qdrant_port must be a valid port number (1-65535)"
    else if c.openai_api_key = "" ∨ c.openai_api_key = "your_openai_api_key" then
      .error "openai_api_key must be set to a valid OpenAI API key"
    else .ok (c, false)
  else if c.openai_api_key = "" ∨ c.openai_api_key = "your_openai_api_key" then
    .error "openai_api_key must be set to a valid OpenAI API key"
  else .ok (c, false)

/-- Builds the `Config` record from raw inputs once the two field validators
have produced `b` (backend) and `l` (memory_log_level). -/
def buildConfig (r : RawConfig) (b : String) (l : LogLevel) : Config :=
  { backend := b
    history_db_path := r.history_db_path
    qdrant_host := r.qdrant_host
    qdrant_port := r.qdrant_port
    neo4j_ip := r.neo4j_ip
    neo4j_username := r.neo4j_username
    neo4j_password := r.neo4j_password
    postgres_host := r.postgres_host
    postgres_port := r.postgres_port
    postgres_user := r.postgres_user
    postgres_password := r.postgres_password
    postgres_database := r.postgres_database
    postgres_collection_name := r.postgres_collection_name
    fastapi_host := r.fastapi_host
    fastapi_port := r.fastapi_port
    memory_log_level := l
    openai_api_key := r.openai_api_key
    openai_model := r.openai_model
    openai_embedding_model := r.openai_embedding_model }

/-- Errors raised by `Config(...)` construction: pydantic collects all
field-validator errors into one ValidationError; a model-validator error is
likewise wrapped in a ValidationError. -/
inductive ConfigError where
  | fieldErrors (errs : List (String × String))
  | modelError (msg : String)
deriving DecidableEq

/-- The list of field-validation errors of a raw input, tagged with the field
name, in field declaration order (backend before memory_log_level). -/
def fieldErrs (r : RawConfig) : List (String × String) :=
  (match validate_backend r.backend with
    | .ok _ => []
    | .error m => [("backend", m)]) ++
  (match validate_memory_log_level r.memory_log_level with
    | .ok _ => []
    | .error m => [("memory_log_level", m)])

/-- Embeds `Config(...)` construction: pydantic runs the per-field validators
first; only when every field validates does the model validator
`validate_backend_dependencies` run, on the constructed record.  The success
value carries the config and the development-warning flag. -/
def mkConfig (r : RawConfig) : Except ConfigError (Config × Bool) :=
  match validate_backend r.backend, validate_memory_log_level r.memory_log_level with
  | .ok b, .ok l =>
      match validate_backend_dependencies (buildConfig r b l) with
      | .ok res => .ok res
      | .error m => .error (.modelError m)
  | _, _ => .error (.fieldErrors (fieldErrs r))

/-- The possible outcomes of a `get_config()` call in src/config/config.py:
either the constructed config is returned to the caller, or the process is
terminated via `sys.exit` with an exit code, after printing a message to
stderr.  There is no constructor for a propagated exception: both `except`
arms of the source call `sys.exit(1)`. -/
inductive GetConfigOutcome where
  | ok (c : Config)
  | exited (code : Nat) (stderrMsg : String)
deriving DecidableEq

/-- Renders a `ConfigError` the way `str(e)` of a pydantic ValidationError
appears in the f-string; only its presence in the message matters here. -/
def renderConfigError : ConfigError → String
  | .fieldErrors errs => String.intercalate "; " (errs.map (fun p => p.1 ++ ": " ++ p.2))
  | .modelError m => m

/-- Embeds the body of `get_config` (src/config/config.py lines 132-141),
one call, on given raw inputs: construction errors are caught, printed to
stderr, and turned into `sys.exit(1)`. -/
def get_config_outcome (r : RawConfig) : GetConfigOutcome :=
  match mkConfig r with
  | .ok (c, _) => .ok c
  | .error e => .exited 1 ("Configuration error: " ++ renderConfigError e)

/-- A Python object, identified by its allocation identity (`id()`): two
objects are identical exactly when their `objId`s coincide. -/
structure Obj where
  objId : Nat
deriving DecidableEq

/-- Process-wide state relevant to the two `functools.lru_cache(maxsize=1)`
caches: the cache of `get_config`, the cache of `get_memory_service`, and
the next fresh allocation identity. -/
structure ProcState where
  configCache : Option Obj
  memCache : Option Obj
  nextId : Nat
deriving DecidableEq

/-- The process state at interpreter start: both caches empty. -/
def initState : ProcState := { configCache := none, memCache := none, nextId := 0 }

/-- Embeds one call of the cached `get_config`: on a hit the cached object
is returned unchanged; on a miss a fresh `Config` object is allocated and
stored in the cache. -/
def get_config_call (s : ProcState) : Obj × ProcState :=
  match s.configCache with
  | some o => (o, s)
  | none =>
      let o : Obj := ⟨s.nextId⟩
      (o, { s with configCache := some o, nextId := s.nextId + 1 })

/-- Embeds one call of the cached `get_memory_service`: on a hit the cached
service object is returned; on a miss `MemoryMCP()` is constructed (which
itself calls `get_config()`, threading the config cache) and the fresh
service object is stored in the cache. -/
def get_memory_service_call (s : ProcState) : Obj × ProcState :=
  match s.memCache with
  | some o => (o, s)
  | none =>
      let s1 := (get_config_call s).2
      let o : Obj := ⟨s1.nextId⟩
      (o, { s1 with memCache := some o, nextId := s1.nextId + 1 })

/-- The vector-store branch selected by `MemoryMCP.__init__`. -/
inductive BackendSel where
  | pgvector
  | qdrant
deriving DecidableEq

/-- Embeds the `match get_config().backend` dispatch at the top of
`MemoryMCP.__init__` (src/app/memory/memory.py lines 21-50): the `case _`
arm raises `ValueError(f"Unsupported backend: ...")`. -/
def memory_backend_dispatch (backend : String) : Except String BackendSel :=
  if backend = "pgvector" then .ok .pgvector
  else if backend = "qdrant" then .ok .qdrant
  else .error ("Unsupported backend: " ++ backend)

/-- Renders an `Option String` the way a Python f-string renders an
`str | None` value. -/
def optStr : Option String → String
  | none => "None"
  | some s => s

/-- The observable events of one registered MCP operation body, in program
order: `notify` is a progress notification to the caller (`ctx.info`), and
the `engine...` events are the awaited calls into the external memory
engine. -/
inductive MCPEvent where
  | notify (msg : String)
  | engineAdd (data user_id : String) (agent_id : Option String)
  | engineGetAll (user_id : String) (agent_id : Option String) (limit : Int)
  | engineDeleteAll (user_id : String) (agent_id : Option String)
  | engineSearch (query user_id : String) (agent_id : Option String)
  | engineUpdate (memory_id data : String)
  | engineDelete (memory_id : String)
deriving DecidableEq

/-- Whether an event is a progress notification to the caller. -/
def MCPEvent.isNotify : MCPEvent → Bool
  | .notify _ => true
  | _ => false

/-- Event trace of the registered `add_memory` tool body. -/
def add_memory_trace (data user_id : String) (agent_id : Option String) :
    List MCPEvent :=
  [.engineAdd data user_id agent_id]

/-- Event trace of the registered `get_all_memories` resource body. -/
def get_all_memories_trace (user_id : String) (agent_id : Option String)
    (limit : Int) : List MCPEvent :=
  [.engineGetAll user_id agent_id limit]

/-- Event trace of the registered `delete_all_memories` tool body. -/
def delete_all_memories_trace (user_id : String) (agent_id : Option String) :
    List MCPEvent :=
  [.engineDeleteAll user_id agent_id]

/-- Event trace of the registered `search_memories` tool body: the
`ctx.info` notification precedes the engine search. -/
def search_memories_trace (query user_id : String) (agent_id : Option String) :
    List MCPEvent :=
  [.notify ("Searching memories for user " ++ user_id ++ " with agent "
      ++ optStr agent_id),
    .engineSearch query user_id agent_id]

/-- Event trace of the registered `update_memory` tool body: the `ctx.info`
notification precedes the engine update. -/
def update_memory_trace (memory_id data : String) : List MCPEvent :=
  [.notify ("Updating memory with ID " ++ memory_id),
    .engineUpdate memory_id data]

/-- Event trace of the registered `delete_memory` tool body. -/
def delete_memory_trace (memory_id : String) : List MCPEvent :=
  [.engineDelete memory_id]

/-- The `Config` record built entirely from shipped defaults. -/
def configDefault : Config := buildConfig rawDefault "pgvector" LogLevel.info

/-- A raw input whose backend is not in the allowed set. -/
def rawInvalid : RawConfig := { rawDefault with backend := "invalid_backend" }

/-- When some field validator fails, construction returns exactly the
collected field errors, and the model validator plays no part. -/
lemma mkConfig_of_fieldErrs_ne_nil (r : RawConfig) (h : fieldErrs r ≠ []) :
    mkConfig r = .error (.fieldErrors (fieldErrs r)) := by
  unfold mkConfig
  cases hb : validate_backend r.backend with
  | ok b =>
      cases hl : validate_memory_log_level r.memory_log_level with
      | ok l =>
          exfalso
          apply h
          unfold fieldErrs
          rw [hb, hl]
          rfl
      | error m => rfl
  | error m => rfl

/-- The collected field errors depend only on the two field-validated raw
inputs. -/
lemma fieldErrs_congr (r r2 : RawConfig) (hb : r2.backend = r.backend)
    (hl : r2.memory_log_level = r.memory_log_level) :
    fieldErrs r2 = fieldErrs r := by
  unfold fieldErrs
  rw [hb, hl]

/-- When both field validators succeed, construction is decided by the model
validator applied to the built record. -/
lemma mkConfig_of_fields_ok (r : RawConfig) (b : String) (l : LogLevel)
    (hb : validate_backend r.backend = .ok b)
    (hl : validate_memory_log_level r.memory_log_level = .ok l) :
    mkConfig r =
      match validate_backend_dependencies (buildConfig r b l) with
      | .ok res => .ok res
      | .error m => .error (.modelError m) := by
  unfold mkConfig
  rw [hb, hl]

/-- The development bypass short-circuits the model validator to success
with the warning flag set. -/
lemma validate_backend_dependencies_of_development (c : Config)
    (h : is_development c) :
    validate_backend_dependencies c = .ok (c, true) := by
  unfold validate_backend_dependencies
  rw [if_pos h]

/-- Claim C2: whenever the raw inputs pass both field validators and the
secret-bearing fields hold their shipped placeholder values
(neo4j_password in \x7b"password", "mem0graph"\x7d and openai_api_key in
\x7b"your_openai_api_key", "sk-proj-"\x7d), the model validator
short-circuits to success with the warning flag set, skipping every
cross-field check; consequently `Config` construction succeeds with a
warning for every such input, regardless of the host, user, port and
API-key fields. -/
theorem development_bypass_skips_cross_field_validation :
    (∀ c : Config, is_development c →
        validate_backend_dependencies c = .ok (c, true)) ∧
    (∀ (r : RawConfig) (b : String) (l : LogLevel),
        validate_backend r.backend = .ok b →
        validate_memory_log_level r.memory_log_level = .ok l →
        (r.neo4j_password = "password" ∨ r.neo4j_password = "mem0graph") →
        (r.openai_api_key = "your_openai_api_key" ∨ r.openai_api_key = "sk-proj-") →
        mkConfig r = .ok (buildConfig r b l, true)) := by
  constructor
  · exact validate_backend_dependencies_of_development
  · intro r b l hb hl hpw hkey
    have hdev : is_development (buildConfig r b l) := ⟨hpw, hkey⟩
    rw [mkConfig_of_fields_ok r b l hb hl,
      validate_backend_dependencies_of_development _ hdev]

/-- Witness for claim C2 at the shipped defaults: construction succeeds via
the bypass, with the warning flag set. -/
theorem development_bypass_witness :
    mkConfig rawDefault = .ok (buildConfig rawDefault "pgvector" LogLevel.info, true) :=
  development_bypass_skips_cross_field_validation.2 rawDefault "pgvector"
    LogLevel.info (by decide) rfl (Or.inl rfl) (Or.inl rfl)

/-- Claim C3: validation is ordered.  (1) If some field-level coercion
fails, construction fails with exactly the collected field errors — never a
model-validator error.  (2) In that case the outcome is determined by the
two field-validated raw inputs alone, so no cross-field check (the bypass
included) influences it.  (3) When both field-level coercions succeed, the
outcome is decided by the cross-field validator on the built record: success
and model-error results correspond exactly. -/
theorem field_validation_runs_before_cross_field_validation :
    (∀ r : RawConfig, fieldErrs r ≠ [] →
        mkConfig r = .error (.fieldErrors (fieldErrs r))) ∧
    (∀ r r2 : RawConfig, fieldErrs r ≠ [] →
        r2.backend = r.backend → r2.memory_log_level = r.memory_log_level →
        mkConfig r2 = mkConfig r) ∧
    (∀ (r : RawConfig) (b : String) (l : LogLevel),
        validate_backend r.backend = .ok b →
        validate_memory_log_level r.memory_log_level = .ok l →
        (∀ res, mkConfig r = .ok res ↔
          validate_backend_dependencies (buildConfig r b l) = .ok res) ∧
        (∀ m, mkConfig r = .error (.modelError m) ↔
          validate_backend_dependencies (buildConfig r b l) = .error m)) := by
  refine ⟨mkConfig_of_fieldErrs_ne_nil, ?_, ?_⟩
  · intro r r2 h hb hl
    have h2 : fieldErrs r2 ≠ [] := by
      rw [fieldErrs_congr r r2 hb hl]
      exact h
    rw [mkConfig_of_fieldErrs_ne_nil r h, mkConfig_of_fieldErrs_ne_nil r2 h2,
      fieldErrs_congr r r2 hb hl]
  · intro r b l hb hl
    rw [mkConfig_of_fields_ok r b l hb hl]
    cases hv : validate_backend_dependencies (buildConfig r b l) with
    | ok res => simp [hv]
    | error m => simp [hv]

/-- Witness for claim C3 at a raw input whose backend fails field-level
coercion: construction reports the field error. -/
theorem field_validation_first_witness :
    mkConfig rawInvalid = .error (.fieldErrors (fieldErrs rawInvalid)) :=
  field_validation_runs_before_cross_field_validation.1 rawInvalid (by decide)

/-- Claim C4: backend strings in the allowed set \x7b"pgvector",
"qdrant"\x7d pass the field validator unchanged and (with all other fields
at their shipped defaults) construction succeeds preserving the backend;
any other backend string is rejected by the field validator, and
construction fails, with a message containing "backend must be one of", the
allowed set, and the rejected value. -/
theorem backend_round_trip_and_rejection :
    ∀ v : String,
      ((v = "pgvector" ∨ v = "qdrant") →
        validate_backend v = .ok v ∧
        ∃ c w, mkConfig { rawDefault with backend := v } = .ok (c, w) ∧
          c.backend = v) ∧
      (¬(v = "pgvector" ∨ v = "qdrant") →
        validate_backend v =
          .error ("backend must be one of \x7b\x27pgvector\x27, \x27qdrant\x27\x7d, got \x27"
            ++ v ++ "\x27") ∧
        mkConfig { rawDefault with backend := v } =
          .error (.fieldErrors [("backend",
            "backend must be one of \x7b\x27pgvector\x27, \x27qdrant\x27\x7d, got \x27"
              ++ v ++ "\x27")])) := by
  intro v
  constructor
  · intro h
    have hval : validate_backend v = .ok v := by
      unfold validate_backend
      rw [if_pos h]
    refine ⟨hval, buildConfig { rawDefault with backend := v } v .info, true, ?_, rfl⟩
    rw [mkConfig_of_fields_ok _ v .info hval (by rfl),
      validate_backend_dependencies_of_development _ ⟨Or.inl rfl, Or.inl rfl⟩]
  · intro h
    have hval : validate_backend v =
        .error ("backend must be one of \x7b\x27pgvector\x27, \x27qdrant\x27\x7d, got \x27"
          ++ v ++ "\x27") := by
      unfold validate_backend
      rw [if_neg h]
    constructor
    · exact hval
    · have hne : fieldErrs { rawDefault with backend := v } ≠ [] := by
        unfold fieldErrs
        rw [hval]
        simp
      rw [mkConfig_of_fieldErrs_ne_nil _ hne]
      unfold fieldErrs
      rw [hval]
      rfl

/-- Witness for claim C4 at the concrete values "pgvector" (accepted,
round-trips) and "invalid_backend" (rejected with the documented message). -/
theorem backend_round_trip_witness :
    validate_backend "pgvector" = .ok "pgvector" ∧
    validate_backend "invalid_backend" =
      .error ("backend must be one of \x7b\x27pgvector\x27, \x27qdrant\x27\x7d, got \x27"
        ++ "invalid_backend" ++ "\x27") :=
  ⟨((backend_round_trip_and_rejection "pgvector").1 (Or.inl rfl)).1,
    ((backend_round_trip_and_rejection "invalid_backend").2 (by decide)).1⟩

/-- A pgvector config whose secrets are no longer placeholders (so the
bypass does not apply) with a given postgres port. -/
def cfgPgReal (p : Int) : Config :=
  { configDefault with openai_api_key := "sk-real-key", postgres_port := p }

/-- A qdrant config whose secrets are no longer placeholders (so the bypass
does not apply) with a given qdrant port. -/
def cfgQdReal (p : Int) : Config :=
  { configDefault with
    backend := "qdrant"
    openai_api_key := "sk-real-key"
    qdrant_port := p }

/-- Claim C5: when the port of the selected backend is actually validated
(backend active, bypass not applying, the other checks of that branch
passing), exactly the integers in the inclusive range [1, 65535] are
accepted: validation succeeds iff 1 ≤ port ≤ 65535, and any port outside
the range yields the port-range error.  Stated for postgres_port under
backend "pgvector" and qdrant_port under backend "qdrant". -/
theorem port_range_inclusive_1_to_65535 :
    (∀ c : Config, ¬ is_development c → c.backend = "pgvector" →
        c.postgres_host ≠ "" → c.postgres_user ≠ "" →
        c.openai_api_key ≠ "" → c.openai_api_key ≠ "your_openai_api_key" →
        (validate_backend_dependencies c = .ok (c, false) ↔
          1 ≤ c.postgres_port ∧ c.postgres_port ≤ 65535) ∧
        (c.postgres_port ≤ 0 ∨ c.postgres_port > 65535 →
          validate_backend_dependencies c =
            .error "postgres_port must be a valid port number (1-65535)")) ∧
    (∀ c : Config, ¬ is_development c → c.backend = "qdrant" →
        c.qdrant_host ≠ "" →
        c.openai_api_key ≠ "" → c.openai_api_key ≠ "your_openai_api_key" →
        (validate_backend_dependencies c = .ok (c, false) ↔
          1 ≤ c.qdrant_port ∧ c.qdrant_port ≤ 65535) ∧
        (c.qdrant_port ≤ 0 ∨ c.qdrant_port > 65535 →
          validate_backend_dependencies c =
            .error "qdrant_port must be a valid port number (1-65535)")) := by
  constructor
  · intro c hdev hb hhost huser hk1 hk2
    unfold validate_backend_dependencies
    rw [if_neg hdev, if_pos hb, if_neg hhost, if_neg huser]
    by_cases hp : c.postgres_port ≤ 0 ∨ c.postgres_port > 65535
    · rw [if_pos hp]
      refine ⟨⟨fun hcontra => absurd hcontra (by simp), fun hin => ?_⟩, fun _ => rfl⟩
      exfalso
      omega
    · rw [if_neg hp, if_neg (by
        intro hcontra
        cases hcontra with
        | inl h => exact hk1 h
        | inr h => exact hk2 h)]
      refine ⟨⟨fun _ => by omega, fun _ => rfl⟩, fun hout => absurd hout hp⟩
  · intro c hdev hb hhost hk1 hk2
    have hnotpg : ¬ c.backend = "pgvector" := by
      rw [hb]
      intro hcontra
      exact absurd hcontra (by decide)
    unfold validate_backend_dependencies
    rw [if_neg hdev, if_neg hnotpg, if_pos hb, if_neg hhost]
    by_cases hp : c.qdrant_port ≤ 0 ∨ c.qdrant_port > 65535
    · rw [if_pos hp]
      refine ⟨⟨fun hcontra => absurd hcontra (by simp), fun hin => ?_⟩, fun _ => rfl⟩
      exfalso
      omega
    · rw [if_neg hp, if_neg (by
        intro hcontra
        cases hcontra with
        | inl h => exact hk1 h
        | inr h => exact hk2 h)]
      refine ⟨⟨fun _ => by omega, fun _ => rfl⟩, fun hout => absurd hout hp⟩

/-- Witness for claim C5 at the boundary ports: 1 and 65535 are accepted,
0 and 65536 are rejected, for both backends. -/
theorem port_range_boundary_witness :
    validate_backend_dependencies (cfgPgReal 1) = .ok (cfgPgReal 1, false) ∧
    validate_backend_dependencies (cfgPgReal 65535) = .ok (cfgPgReal 65535, false) ∧
    validate_backend_dependencies (cfgPgReal 0) =
      .error "postgres_port must be a valid port number (1-65535)" ∧
    validate_backend_dependencies (cfgQdReal 65536) =
      .error "qdrant_port must be a valid port number (1-65535)" ∧
    validate_backend_dependencies (cfgQdReal 6333) = .ok (cfgQdReal 6333, false) :=
  ⟨((port_range_inclusive_1_to_65535.1 (cfgPgReal 1) (by decide) rfl (by decide)
      (by decide) (by decide) (by decide)).1).mpr (by decide),
    ((port_range_inclusive_1_to_65535.1 (cfgPgReal 65535) (by decide) rfl (by decide)
      (by decide) (by decide) (by decide)).1).mpr (by decide),
    (port_range_inclusive_1_to_65535.1 (cfgPgReal 0) (by decide) rfl (by decide)
      (by decide) (by decide) (by decide)).2 (by decide),
    (port_range_inclusive_1_to_65535.2 (cfgQdReal 65536) (by decide) rfl (by decide)
      (by decide) (by decide)).2 (by decide),
    ((port_range_inclusive_1_to_65535.2 (cfgQdReal 6333) (by decide) rfl (by decide)
      (by decide) (by decide)).1).mpr (by decide)⟩

/-- The outcome of cross-field validation, forgetting the carried config:
`.ok flag` on success (flag = development warning), `.error msg` on
failure. -/
def validationStatus (c : Config) : Except String Bool :=
  (validate_backend_dependencies c).map (fun res => res.2)

/-- Claim C10: cross-field validation never fails because of
postgres_password.  (1) The validation outcome is independent of the
postgres_password field altogether (the password check in the source has an
empty body).  (2) Under backend "pgvector" with the bypass not applying and
the sibling checks passing, validation succeeds for every postgres_password
value — the empty string and the default "postgres" included. -/
theorem postgres_password_never_fails_validation :
    (∀ (c : Config) (p : String),
        validationStatus { c with postgres_password := p } = validationStatus c) ∧
    (∀ c : Config, ¬ is_development c → c.backend = "pgvector" →
        c.postgres_host ≠ "" → c.postgres_user ≠ "" →
        1 ≤ c.postgres_port → c.postgres_port ≤ 65535 →
        c.openai_api_key ≠ "" → c.openai_api_key ≠ "your_openai_api_key" →
        ∀ p : String,
          validate_backend_dependencies { c with postgres_password := p } =
            .ok ({ c with postgres_password := p }, false)) := by
  constructor
  · intro c p
    unfold validationStatus validate_backend_dependencies is_development
    dsimp only
    split_ifs <;> rfl
  · intro c hdev hb hhost huser hp1 hp2 hk1 hk2 p
    have hdev2 : ¬ is_development { c with postgres_password := p } := hdev
    have hb2 : ({ c with postgres_password := p } : Config).backend = "pgvector" := hb
    have hport : ¬(({ c with postgres_password := p } : Config).postgres_port ≤ 0 ∨
        ({ c with postgres_password := p } : Config).postgres_port > 65535) := by
      dsimp only
      omega
    unfold validate_backend_dependencies
    rw [if_neg hdev2, if_pos hb2, if_neg (show ¬({ c with postgres_password := p } :
        Config).postgres_host = "" from hhost),
      if_neg (show ¬({ c with postgres_password := p } : Config).postgres_user = ""
        from huser), if_neg hport,
      if_neg (show ¬(({ c with postgres_password := p } : Config).openai_api_key = "" ∨
        ({ c with postgres_password := p } : Config).openai_api_key =
          "your_openai_api_key") from fun hcontra => hcontra.elim hk1 hk2)]

/-- Witness for claim C10: with a real API key and backend "pgvector",
validation succeeds with postgres_password set to the empty string and to
the shipped default "postgres". -/
theorem postgres_password_no_op_witness :
    validate_backend_dependencies { cfgPgReal 5432 with postgres_password := "" } =
      .ok ({ cfgPgReal 5432 with postgres_password := "" }, false) ∧
    validate_backend_dependencies
        { cfgPgReal 5432 with postgres_password := "postgres" } =
      .ok ({ cfgPgReal 5432 with postgres_password := "postgres" }, false) :=
  ⟨postgres_password_never_fails_validation.2 (cfgPgReal 5432) (by decide) rfl
      (by decide) (by decide) (by decide) (by decide) (by decide) (by decide) "",
    postgres_password_never_fails_validation.2 (cfgPgReal 5432) (by decide) rfl
      (by decide) (by decide) (by decide) (by decide) (by decide) (by decide)
      "postgres"⟩

/-- Claim C1 (failing input): with neo4j_password and openai_api_key at
their shipped placeholder defaults and backend set to "neo4j" (all other
fields at defaults), construction does NOT succeed: the backend field
validator rejects "neo4j" before the model validator — and therefore before
the development bypass — can run.  This contradicts the claim (and the test
test_valid_backends shipped with the repository, which asserts that
Config(backend="neo4j") succeeds). -/
theorem neo4j_backend_rejected_at_field_validation :
    mkConfig { rawDefault with backend := "neo4j" } =
      .error (.fieldErrors [("backend",
        "backend must be one of \x7b\x27pgvector\x27, \x27qdrant\x27\x7d, got \x27neo4j\x27")]) := by
  decide

/-- Claim C6: both `functools.lru_cache(maxsize=1)` singletons are
memoized: from any process state, a second call of `get_config` returns the
identical object (same allocation identity) as the first, and likewise for
`get_memory_service`. -/
theorem loader_and_service_calls_memoized :
    ∀ s : ProcState,
      (get_config_call (get_config_call s).2).1 = (get_config_call s).1 ∧
      (get_memory_service_call (get_memory_service_call s).2).1 =
        (get_memory_service_call s).1 := by
  intro s
  constructor
  · cases hc : s.configCache <;> simp [get_config_call, hc]
  · cases hm : s.memCache with
    | some o => simp [get_memory_service_call, hm]
    | none =>
        cases hc : s.configCache <;>
          simp [get_memory_service_call, get_config_call, hm, hc]

/-- Claim C7: whenever `Config` construction fails, `get_config` prints the
diagnostic to stderr and exits the process with status 1; its outcome is
always either a returned config or a process exit, and every exit carries a
non-zero status — no catchable error is ever propagated to the caller. -/
theorem config_failure_exits_nonzero :
    ∀ r : RawConfig,
      (∀ e, mkConfig r = .error e →
        get_config_outcome r =
          .exited 1 ("Configuration error: " ++ renderConfigError e)) ∧
      ((∃ c, get_config_outcome r = .ok c) ∨
        ∃ m, get_config_outcome r = .exited 1 m) ∧
      (∀ code m, get_config_outcome r = .exited code m → code ≠ 0) := by
  intro r
  unfold get_config_outcome
  cases h : mkConfig r with
  | ok res =>
      cases res with
      | mk c w =>
          exact ⟨fun e he => absurd he (by simp), Or.inl ⟨c, rfl⟩,
            fun code m hcontra => absurd hcontra (by simp)⟩
  | error e =>
      exact ⟨fun e2 he2 => by cases Except.error.inj he2; rfl,
        Or.inr ⟨_, rfl⟩,
        fun code m heq => by injection heq with h1 h2; omega⟩

/-- Witness for claim C7 at the invalid backend "invalid_backend":
`get_config` exits with status 1 and the diagnostic on stderr. -/
theorem config_failure_exit_witness :
    get_config_outcome rawInvalid =
      .exited 1 ("Configuration error: " ++ renderConfigError (.fieldErrors
        [("backend",
          "backend must be one of \x7b\x27pgvector\x27, \x27qdrant\x27\x7d, got \x27invalid_backend\x27")])) :=
  (config_failure_exits_nonzero rawInvalid).1 _ (by decide)

/-- Claim C8: the `MemoryMCP.__init__` backend dispatch raises the explicit
"Unsupported backend" error for every backend string other than "pgvector"
and "qdrant"; and whenever the backend field validator accepted a value,
the dispatch succeeds on it — under that precondition the error branch is
unreachable. -/
theorem unsupported_backend_dispatch_unreachable :
    (∀ b : String, b ≠ "pgvector" → b ≠ "qdrant" →
      memory_backend_dispatch b = .error ("Unsupported backend: " ++ b)) ∧
    (∀ v b : String, validate_backend v = .ok b →
      ∃ sel, memory_backend_dispatch b = .ok sel) := by
  constructor
  · intro b h1 h2
    unfold memory_backend_dispatch
    rw [if_neg h1, if_neg h2]
  · intro v b h
    unfold validate_backend at h
    by_cases hv : v = "pgvector" ∨ v = "qdrant"
    · rw [if_pos hv] at h
      have hb : v = b := Except.ok.inj h
      subst hb
      cases hv with
      | inl hpg =>
          subst hpg
          exact ⟨.pgvector, rfl⟩
      | inr hqd =>
          subst hqd
          exact ⟨.qdrant, by decide⟩
    · rw [if_neg hv] at h
      exact absurd h (by simp)

/-- Witness for claim C8: "neo4j" hits the error branch; a validated
"pgvector" dispatches successfully. -/
theorem unsupported_backend_witness :
    memory_backend_dispatch "neo4j" = .error ("Unsupported backend: " ++ "neo4j") ∧
    ∃ sel, memory_backend_dispatch "pgvector" = .ok sel :=
  ⟨unsupported_backend_dispatch_unreachable.1 "neo4j" (by decide) (by decide),
    unsupported_backend_dispatch_unreachable.2 "pgvector" "pgvector" (by decide)⟩

/-- Claim C9: the `search_memories` body emits a progress notification to
the caller before the engine search, and the `update_memory` body emits one
before the engine update; none of the other four registered operation
bodies emits any notification. -/
theorem progress_notifications_exactly_search_and_update :
    ∀ (query user_id data memory_id : String) (agent_id : Option String)
      (limit : Int),
      (∃ m rest, search_memories_trace query user_id agent_id =
        .notify m :: rest ∧ .engineSearch query user_id agent_id ∈ rest) ∧
      (∃ m rest, update_memory_trace memory_id data =
        .notify m :: rest ∧ .engineUpdate memory_id data ∈ rest) ∧
      (add_memory_trace data user_id agent_id).all
        (fun e => ! e.isNotify) = true ∧
      (get_all_memories_trace user_id agent_id limit).all
        (fun e => ! e.isNotify) = true ∧
      (delete_all_memories_trace user_id agent_id).all
        (fun e => ! e.isNotify) = true ∧
      (delete_memory_trace memory_id).all (fun e => ! e.isNotify) = true := by
  intro query user_id data memory_id agent_id limit
  refine ⟨⟨_, _, rfl, ?_⟩, ⟨_, _, rfl, ?_⟩, rfl, rfl, rfl, rfl⟩
  · simp [search_memories_trace]
  · simp [update_memory_trace]

end Mem0
